import Mathlib

/-!
Shallow embedding of the AI Marketing Wizard chat component
(src/app/page.tsx): session gate, conversation engine state, the
Gemini API call with its error formatting, and the submission
entry points (send button and Enter keypress).
-/

namespace MarketingWizard

/-- Role of a transcript turn (`type MessageRole = 'user' | 'assistant'`). -/
inductive MessageRole where
  | user
  | assistant
deriving DecidableEq, Repr

/-- A transcript turn (`interface Message`); the JS `Date` timestamp is
modelled as a `Nat` instant. -/
structure Message where
  role : MessageRole
  content : String
  timestamp : Nat
deriving DecidableEq, Repr

/-- The component state held in React `useState` hooks:
`apiKey`, `showApiInput`, `messages`, `input`, `isTyping`. -/
structure WizardState where
  apiKey : String
  showApiInput : Bool
  messages : List Message
  input : String
  isTyping : Bool
deriving DecidableEq, Repr

/-- Constant `GEMINI_MODEL = 'gemini-2.5-pro'`. -/
def GEMINI_MODEL : String := "gemini-2.5-pro"

/-- JS truthiness test `!s.trim()`: the trimmed string is empty exactly
when every character of `s` is whitespace. The source only ever uses
`trim()` inside such truthiness tests, never its value. -/
def isBlank (s : String) : Bool :=
  s.data.all Char.isWhitespace

/-- The greeting message content set by `handleSetApiKey`. -/
def greetingContent : String :=
  "👋 Hello! I'm your AI Marketing Wizard powered by Google Gemini. I can help you with:\n\n🎯 Campaign Generation\n✍️ Content Creation\n👥 Audience Analysis\n💡 Strategy Advisory\n📱 Multi-channel Planning\n📊 Performance Optimization\n\nWhat would you like to work on today?"

/-- Handler `handleSetApiKey`: no-op when the trimmed key is empty, otherwise closes
the gate and initialises the transcript with the greeting turn. -/
def handleSetApiKey (s : WizardState) (t : Nat) : WizardState :=
  if isBlank s.apiKey then s
  else
    { s with
      showApiInput := false
      messages := [{ role := MessageRole.assistant, content := greetingContent, timestamp := t }] }

/-- The fixed instruction preamble (`const systemPrompt`). -/
def systemPrompt : String :=
  "You are an expert AI Marketing Wizard. You help users with:\n\n1. CAMPAIGN GENERATION: Create comprehensive marketing campaigns with phases, channels, budgets, and expected results\n2. CONTENT CREATION: Write engaging copy for ads, emails, social media posts, landing pages, etc.\n3. AUDIENCE ANALYSIS: Build detailed buyer personas, segment audiences, identify pain points\n4. STRATEGY ADVISORY: Provide strategic marketing recommendations based on goals and resources\n5. MULTI-CHANNEL PLANNING: Coordinate campaigns across multiple marketing channels\n6. PERFORMANCE OPTIMIZATION: Analyze metrics and suggest improvements\n\nAlways be:\n- Specific and actionable\n- Data-driven when possible\n- Creative and strategic\n- Concise but thorough\n- Professional yet friendly\n\nFormat responses with clear sections using markdown. Use emojis sparingly for visual organization."

/-- One `{ text: ... }` part of the request body. -/
structure TextPart where
  text : String
deriving DecidableEq, Repr

/-- One `{ parts: [...] }` item of the request body's `contents`. -/
structure ContentItem where
  parts : List TextPart
deriving DecidableEq, Repr

/-- The request body's `generationConfig`; the JS numbers are modelled
as rationals / naturals. -/
structure GenerationConfig where
  temperature : ℚ
  topK : Nat
  topP : ℚ
  maxOutputTokens : Nat
deriving DecidableEq, Repr

/-- The JSON body POSTed to the completion endpoint. -/
structure GeminiRequestBody where
  contents : List ContentItem
  generationConfig : GenerationConfig
deriving DecidableEq, Repr

/-- The single prompt string sent to the API:
`systemPrompt + "\n\nUser: " + userMessage + "\n\nAssistant:"`. -/
def geminiPrompt (userMessage : String) : String :=
  systemPrompt ++ "\n\nUser: " ++ userMessage ++ "\n\nAssistant:"

/-- The request body built by `callGeminiAPI` for a given user message. -/
def buildRequestBody (userMessage : String) : GeminiRequestBody :=
  { contents := [{ parts := [{ text := geminiPrompt userMessage }] }]
    generationConfig :=
      { temperature := 7 / 10, topK := 40, topP := 95 / 100, maxOutputTokens := 2048 } }

/-- Shape `{ text?: string }` in `GeminiAPIResponse`. -/
structure GeminiPart where
  text : Option String
deriving DecidableEq, Repr

/-- Shape `{ parts?: Array<{ text?: string }> }` in `GeminiAPIResponse`. -/
structure GeminiContent where
  parts : Option (List GeminiPart)
deriving DecidableEq, Repr

/-- Shape `{ content?: ... }`, a candidate in `GeminiAPIResponse`. -/
structure GeminiCandidate where
  content : Option GeminiContent
deriving DecidableEq, Repr

/-- Mirror of `interface GeminiAPIResponse` (HTTP-success body shape). -/
structure GeminiAPIResponse where
  candidates : Option (List GeminiCandidate)
deriving DecidableEq, Repr

/-- The optional chain `data.candidates?.[0]?.content?.parts?.[0]?.text`. -/
def extractFirstText (d : GeminiAPIResponse) : Option String :=
  ((((d.candidates.bind List.head?).bind GeminiCandidate.content).bind
      GeminiContent.parts).bind List.head?).bind GeminiPart.text

/-- A JS thrown value as seen by a `catch` clause: either an `Error` with a
`.message`, or some non-`Error` value. -/
inductive JSThrown where
  | error (message : String)
  | nonError
deriving DecidableEq, Repr

/-- Expression `error instanceof Error ? error.message : 'Unknown error'`. -/
def extractedErrorMessage : JSThrown → String
  | JSThrown.error m => m
  | JSThrown.nonError => "Unknown error"

/-- Outcome of the `fetch` exchange, as observed by `callGeminiAPI`:
an HTTP-success body, an HTTP error (non-2xx) whose parsed body yields
`error?.message` (flattened to one `Option`: `none` when `error` or
`message` is missing), or a transport-level rejection. -/
inductive FetchOutcome where
  | ok (body : GeminiAPIResponse)
  | httpError (errorMessage : Option String)
  | transportFailure (thrown : JSThrown)
deriving DecidableEq, Repr

/-- Whether the outcome is a failure (non-2xx status or transport failure). -/
def FetchOutcome.isFailure : FetchOutcome → Bool
  | FetchOutcome.ok _ => false
  | FetchOutcome.httpError _ => true
  | FetchOutcome.transportFailure _ => true

/-- Expression `error.error?.message || 'API request failed'`: JS `||` falls back on
`undefined` and on the empty string. -/
def httpErrorMessage : Option String → String
  | some m => if m = "" then "API request failed" else m
  | none => "API request failed"

/-- The warning returned when the success body has no text part. -/
def emptyWarning : String := "⚠️ Error: Received empty response from Gemini API."

/-- The `try` block of `callGeminiAPI`: on HTTP success extract the first
text part (with the empty-response fallback of `?? ...`); on non-2xx throw
`new Error(error.error?.message || 'API request failed')`; a transport
failure re-raises whatever `fetch`/`json` threw. -/
def callGeminiAPITry : FetchOutcome → Except JSThrown String
  | FetchOutcome.ok body => Except.ok ((extractFirstText body).getD emptyWarning)
  | FetchOutcome.httpError m => Except.error (JSThrown.error (httpErrorMessage m))
  | FetchOutcome.transportFailure th => Except.error th

/-- Predicate `listStartsWith pat l`: true when `pat` is an initial segment of `l`
(JS `String.prototype.startsWith` on character lists). -/
def listStartsWith : List Char → List Char → Bool
  | [], _ => true
  | _ :: _, [] => false
  | p :: ps, c :: cs => p = c && listStartsWith ps cs

/-- Predicate `seqContains pat l`: true when `pat` occurs contiguously in `l`. -/
def seqContains (pat : List Char) : List Char → Bool
  | [] => pat.isEmpty
  | c :: rest => listStartsWith pat (c :: rest) || seqContains pat rest

/-- JS `s.includes(pat)`: substring containment. -/
def strIncludes (s pat : String) : Bool :=
  seqContains pat.data s.data

/-- The fixed tail of every failure warning: the prompt to verify the
credential plus the pointer to obtain one. -/
def checkKeySuffix : String :=
  "\n\nPlease check your API key and try again. Get your free API key at: https://ai.google.dev/"

/-- The model hint appended when the error message mentions "not found". -/
def modelHintText : String :=
  "\n\nTip: Make sure the model name \"" ++ GEMINI_MODEL ++
    "\" is available for your API key. See the supported models here: https://ai.google.dev/gemini-api/docs/models"

/-- The `catch` block of `callGeminiAPI`: formats the warning string from
the thrown value. -/
def catchHandler (th : JSThrown) : String :=
  let errorMessage := extractedErrorMessage th
  let modelHint := if strIncludes errorMessage "not found" then modelHintText else ""
  "⚠️ Error: " ++ errorMessage ++ modelHint ++ checkKeySuffix

/-- Function `callGeminiAPI` as its caller sees it: the `try` block with every
failure routed through the `catch` block's formatter. -/
def callGeminiAPI (o : FetchOutcome) : String :=
  match callGeminiAPITry o with
  | Except.ok s => s
  | Except.error th => catchHandler th

/-- Function `callGeminiAPI` viewed as a possibly-throwing JS async function:
the `catch` clause returns normally, so every branch is `Except.ok`. -/
def callGeminiAPICaught (o : FetchOutcome) : Except JSThrown String :=
  match callGeminiAPITry o with
  | Except.ok s => Except.ok s
  | Except.error th => Except.ok (catchHandler th)

/-- The state after the optimistic update in `handleSend`, just before the
network call: user turn appended, input cleared, pending flag raised. -/
def handleSendPre (s : WizardState) (t1 : Nat) : WizardState :=
  { s with
    messages := s.messages ++ [{ role := MessageRole.user, content := s.input, timestamp := t1 }]
    input := ""
    isTyping := true }

/-- Handler `handleSend`, parameterised by the fetch outcome `o` and the two turn
timestamps. Returns the new state together with the list of network
requests issued (empty when the trimmed input is empty and `handleSend`
returns early). The `match` on `callGeminiAPICaught` is the
`try`/`catch` around `await callGeminiAPI(input)`. -/
def handleSend (s : WizardState) (o : FetchOutcome) (t1 t2 : Nat) :
    WizardState × List GeminiRequestBody :=
  if isBlank s.input then (s, [])
  else
    let s1 := handleSendPre s t1
    match callGeminiAPICaught o with
    | Except.ok aiResponse =>
      ({ s1 with
          messages := s1.messages ++
            [{ role := MessageRole.assistant, content := aiResponse, timestamp := t2 }]
          isTyping := false },
        [buildRequestBody s.input])
    | Except.error thrown =>
      ({ s1 with
          messages := s1.messages ++
            [{ role := MessageRole.assistant,
               content := "⚠️ An error occurred: " ++ extractedErrorMessage thrown,
               timestamp := t2 }]
          isTyping := false },
        [buildRequestBody s.input])

/-- A React keyboard event, restricted to the fields `handleKeyPress` reads. -/
structure KeyEvent where
  key : String
  shiftKey : Bool
deriving DecidableEq, Repr

/-- Handler `handleKeyPress` on the chat textarea: Enter without Shift calls
`handleSend`; anything else does nothing. There is no pending-flag check
here, and the textarea itself is never disabled. -/
def handleKeyPress (s : WizardState) (e : KeyEvent) (o : FetchOutcome) (t1 t2 : Nat) :
    WizardState × List GeminiRequestBody :=
  if e.key = "Enter" && !e.shiftKey then handleSend s o t1 t2 else (s, [])

/-- Clicking the send button: the button carries
`disabled={!input.trim() || isTyping}`, so a click reaches `handleSend`
only when the trimmed input is non-empty and no request is pending. -/
def sendButtonClick (s : WizardState) (o : FetchOutcome) (t1 t2 : Nat) :
    WizardState × List GeminiRequestBody :=
  if isBlank s.input ∨ s.isTyping then (s, []) else handleSend s o t1 t2

/-- The human-readable message embedded in the warning for each failure
outcome: the (fallback-adjusted) error-body message for an HTTP error,
or what the `catch` clause extracts from the thrown transport value. -/
def failureErrorMessage : FetchOutcome → String
  | FetchOutcome.ok _ => ""
  | FetchOutcome.httpError m => httpErrorMessage m
  | FetchOutcome.transportFailure th => extractedErrorMessage th

theorem listStartsWith_self (p l : List Char) : listStartsWith p (p ++ l) = true := by
  induction p with
  | nil => rfl
  | cons x xs ih => simp [listStartsWith, ih]

theorem listStartsWith_extend (p l b : List Char) (h : listStartsWith p l = true) :
    listStartsWith p (l ++ b) = true := by
  induction p generalizing l with
  | nil => rfl
  | cons x xs ih =>
    cases l with
    | nil => simp [listStartsWith] at h
    | cons c cs =>
      simp [listStartsWith] at h ⊢
      exact ⟨h.1, ih cs h.2⟩

theorem seqContains_here (p l : List Char) : seqContains p (p ++ l) = true := by
  cases p with
  | nil =>
    cases l with
    | nil => rfl
    | cons c cs => simp [seqContains, listStartsWith, List.isEmpty]
  | cons x xs =>
    simp only [List.cons_append, seqContains, Bool.or_eq_true]
    exact Or.inl (listStartsWith_self (x :: xs) l)

theorem seqContains_cons (p : List Char) (c : Char) (l : List Char)
    (h : seqContains p l = true) : seqContains p (c :: l) = true := by
  simp only [seqContains, Bool.or_eq_true]
  exact Or.inr h

theorem seqContains_append_left (p a l : List Char) (h : seqContains p l = true) :
    seqContains p (a ++ l) = true := by
  induction a with
  | nil => exact h
  | cons c cs ih => exact seqContains_cons p c (cs ++ l) ih

theorem seqContains_append_right (p l b : List Char) (h : seqContains p l = true) :
    seqContains p (l ++ b) = true := by
  induction l with
  | nil =>
    simp only [seqContains] at h
    cases p with
    | nil =>
      cases b with
      | nil => rfl
      | cons c cs => simp [seqContains, listStartsWith]
    | cons x xs => simp [List.isEmpty] at h
  | cons c cs ih =>
    simp only [seqContains, Bool.or_eq_true] at h
    rcases h with h | h
    · simp only [List.cons_append, seqContains, Bool.or_eq_true]
      exact Or.inl (listStartsWith_extend p (c :: cs) b h)
    · simp only [List.cons_append, seqContains, Bool.or_eq_true]
      exact Or.inr (ih h)

theorem strIncludes_head (pat b : String) : strIncludes (pat ++ b) pat = true := by
  unfold strIncludes
  rw [String.data_append]
  exact seqContains_here pat.data b.data

theorem strIncludes_mono_left (a l pat : String) (h : strIncludes l pat = true) :
    strIncludes (a ++ l) pat = true := by
  unfold strIncludes at h ⊢
  rw [String.data_append]
  exact seqContains_append_left pat.data a.data l.data h

theorem strIncludes_mono_right (l b pat : String) (h : strIncludes l pat = true) :
    strIncludes (l ++ b) pat = true := by
  unfold strIncludes at h ⊢
  rw [String.data_append]
  exact seqContains_append_right pat.data l.data b.data h

theorem strIncludes_mid (a pat b : String) : strIncludes (a ++ pat ++ b) pat = true := by
  rw [String.append_assoc]
  exact strIncludes_mono_left a (pat ++ b) pat (strIncludes_head pat b)

/-- On every failure outcome, `callGeminiAPI` returns the warning built by
the `catch` block: the fixed marker, the extracted message, the conditional
model hint, and the fixed credential-reminder tail. -/
theorem callGeminiAPI_failure_eq (o : FetchOutcome) (h : o.isFailure = true) :
    callGeminiAPI o =
      "⚠️ Error: " ++ failureErrorMessage o ++
        (if strIncludes (failureErrorMessage o) "not found" then modelHintText else "") ++
        checkKeySuffix := by
  cases o with
  | ok body => simp [FetchOutcome.isFailure] at h
  | httpError m =>
    simp [callGeminiAPI, callGeminiAPITry, catchHandler, extractedErrorMessage,
      failureErrorMessage]
  | transportFailure th =>
    cases th with
    | error m =>
      simp [callGeminiAPI, callGeminiAPITry, catchHandler, extractedErrorMessage,
        failureErrorMessage]
    | nonError =>
      simp [callGeminiAPI, callGeminiAPITry, catchHandler, extractedErrorMessage,
        failureErrorMessage]

/-- A concrete post-gate state with a non-blank input, used to instantiate
the universally quantified theorems. -/
def sampleState : WizardState :=
  { apiKey := "VALIDKEY"
    showApiInput := false
    messages := [{ role := MessageRole.assistant, content := greetingContent, timestamp := 0 }]
    input := "Generate a campaign for my SaaS product"
    isTyping := false }

/-- A concrete success body with one candidate, one part, text present. -/
def sampleBody : GeminiAPIResponse :=
  { candidates := some [{ content := some { parts := some [{ text := some "Campaign: ..." }] } }] }

/-- C4: For every submission whose input is empty or whitespace-only,
`handleSend` returns early: the state (transcript, pending flag, and all
other fields) is unchanged and no network request is issued. -/
theorem c4_blank_input_noop (s : WizardState) (o : FetchOutcome) (t1 t2 : Nat)
    (h : isBlank s.input = true) :
    handleSend s o t1 t2 = (s, []) := by
  unfold handleSend
  simp [h]

/-- Witness for `c4_blank_input_noop` at a whitespace-only input. -/
theorem c4_blank_input_noop_witness :
    handleSend { sampleState with input := "  " } (FetchOutcome.httpError none) 1 2 =
      ({ sampleState with input := "  " }, []) :=
  c4_blank_input_noop { sampleState with input := "  " } (FetchOutcome.httpError none) 1 2
    (by decide)

/-- C5: For the session gate's submit action: a blank (whitespace-only or
empty) credential leaves the state unchanged, while a non-blank credential
closes the gate and initialises the transcript to exactly the one
assistant greeting turn. -/
theorem c5_session_gate_submit (s : WizardState) (t : Nat) :
    (isBlank s.apiKey = true → handleSetApiKey s t = s) ∧
    (isBlank s.apiKey = false →
      (handleSetApiKey s t).showApiInput = false ∧
      (handleSetApiKey s t).messages =
        [{ role := MessageRole.assistant, content := greetingContent, timestamp := t }]) := by
  constructor
  · intro h
    simp [handleSetApiKey, h]
  · intro h
    simp [handleSetApiKey, h]

/-- The initial state of the component: gate open, everything empty. -/
def initialState : WizardState :=
  { apiKey := "", showApiInput := true, messages := [], input := "", isTyping := false }

/-- Witness for `c5_session_gate_submit`: the empty credential is a no-op
(gate stays open, transcript stays empty), and a non-empty credential
closes the gate with the greeting transcript. -/
theorem c5_session_gate_submit_witness :
    handleSetApiKey initialState 0 = initialState ∧
    (handleSetApiKey { initialState with apiKey := "VALIDKEY" } 0).showApiInput = false ∧
    (handleSetApiKey { initialState with apiKey := "VALIDKEY" } 0).messages =
      [{ role := MessageRole.assistant, content := greetingContent, timestamp := 0 }] :=
  ⟨(c5_session_gate_submit initialState 0).1 (by decide),
   ((c5_session_gate_submit { initialState with apiKey := "VALIDKEY" } 0).2 (by decide)).1,
   ((c5_session_gate_submit { initialState with apiKey := "VALIDKEY" } 0).2 (by decide)).2⟩

/-- C2: For every submission with non-blank input, the pending flag is raised
by the optimistic update that precedes the network call, and after
`handleSend` completes the pending flag is false and the stored credential
is unchanged — for every fetch outcome, success or failure alike. -/
theorem c2_pending_lifecycle (s : WizardState) (o : FetchOutcome) (t1 t2 : Nat)
    (h : isBlank s.input = false) :
    (handleSendPre s t1).isTyping = true ∧
    (handleSend s o t1 t2).1.isTyping = false ∧
    (handleSend s o t1 t2).1.apiKey = s.apiKey := by
  refine ⟨rfl, ?_, ?_⟩ <;>
  · unfold handleSend
    simp only [h, Bool.false_eq_true, if_false]
    cases hc : callGeminiAPICaught o <;> simp [handleSendPre]

/-- Witness for `c2_pending_lifecycle` on a failed call. -/
theorem c2_pending_lifecycle_witness :
    (handleSendPre sampleState 1).isTyping = true ∧
    (handleSend sampleState (FetchOutcome.transportFailure (JSThrown.error "network down")) 1 2).1.isTyping
      = false ∧
    (handleSend sampleState (FetchOutcome.transportFailure (JSThrown.error "network down")) 1 2).1.apiKey
      = sampleState.apiKey :=
  c2_pending_lifecycle sampleState (FetchOutcome.transportFailure (JSThrown.error "network down"))
    1 2 (by decide)

/-- C3: For every submission with non-blank input whose network call succeeds,
the transcript grows by exactly the user turn (content = the submitted
text) followed by the assistant turn, so its length increases by 2 and the
user turn precedes the assistant turn. -/
theorem c3_success_appends_two (s : WizardState) (body : GeminiAPIResponse) (t1 t2 : Nat)
    (h : isBlank s.input = false) :
    (handleSend s (FetchOutcome.ok body) t1 t2).1.messages =
      s.messages ++
        [{ role := MessageRole.user, content := s.input, timestamp := t1 },
         { role := MessageRole.assistant, content := callGeminiAPI (FetchOutcome.ok body),
           timestamp := t2 }] ∧
    (handleSend s (FetchOutcome.ok body) t1 t2).1.messages.length = s.messages.length + 2 := by
  have hm : (handleSend s (FetchOutcome.ok body) t1 t2).1.messages =
      s.messages ++
        [{ role := MessageRole.user, content := s.input, timestamp := t1 },
         { role := MessageRole.assistant, content := callGeminiAPI (FetchOutcome.ok body),
           timestamp := t2 }] := by
    unfold handleSend
    simp only [h, Bool.false_eq_true, if_false]
    simp [callGeminiAPICaught, callGeminiAPITry, callGeminiAPI, handleSendPre]
  exact ⟨hm, by rw [hm]; simp⟩

/-- Witness for `c3_success_appends_two` on a concrete success body. -/
theorem c3_success_appends_two_witness :
    (handleSend sampleState (FetchOutcome.ok sampleBody) 1 2).1.messages =
      sampleState.messages ++
        [{ role := MessageRole.user, content := sampleState.input, timestamp := 1 },
         { role := MessageRole.assistant,
           content := callGeminiAPI (FetchOutcome.ok sampleBody), timestamp := 2 }] ∧
    (handleSend sampleState (FetchOutcome.ok sampleBody) 1 2).1.messages.length =
      sampleState.messages.length + 2 :=
  c3_success_appends_two sampleState sampleBody 1 2 (by decide)

/-- C8: Every submission with non-blank input issues exactly one request,
whose body holds a single prompt string — the fixed preamble, then
"\n\nUser: ", the submitted text, then "\n\nAssistant:" — with the fixed
generation config (temperature 0.7, topK 40, topP 0.95, maxOutputTokens
2048); the body is computed from the input alone, so earlier transcript
turns are never included. -/
theorem c8_request_body_shape (s : WizardState) (o : FetchOutcome) (t1 t2 : Nat)
    (h : isBlank s.input = false) :
    (handleSend s o t1 t2).2 = [buildRequestBody s.input] ∧
    (buildRequestBody s.input).contents =
      [{ parts := [{ text := systemPrompt ++ "\n\nUser: " ++ s.input ++ "\n\nAssistant:" }] }] ∧
    (buildRequestBody s.input).generationConfig =
      { temperature := 7 / 10, topK := 40, topP := 95 / 100, maxOutputTokens := 2048 } ∧
    (∀ ms : List Message,
      (handleSend { s with messages := ms } o t1 t2).2 = (handleSend s o t1 t2).2) := by
  have hreq : ∀ ms : List Message,
      (handleSend { s with messages := ms } o t1 t2).2 = [buildRequestBody s.input] := by
    intro ms
    unfold handleSend
    simp only [h, Bool.false_eq_true, if_false]
    cases hc : callGeminiAPICaught o <;> simp
  have hs : (handleSend s o t1 t2).2 = [buildRequestBody s.input] := by
    have := hreq s.messages
    simpa using this
  refine ⟨hs, rfl, rfl, fun ms => ?_⟩
  rw [hreq ms, hs]

/-- Witness for `c8_request_body_shape` at the sample state. -/
theorem c8_request_body_shape_witness :
    (handleSend sampleState (FetchOutcome.ok sampleBody) 1 2).2 =
      [buildRequestBody sampleState.input] ∧
    (buildRequestBody sampleState.input).generationConfig =
      { temperature := 7 / 10, topK := 40, topP := 95 / 100, maxOutputTokens := 2048 } :=
  ⟨(c8_request_body_shape sampleState (FetchOutcome.ok sampleBody) 1 2 (by decide)).1,
   (c8_request_body_shape sampleState (FetchOutcome.ok sampleBody) 1 2 (by decide)).2.2.1⟩

/-- C9: On an HTTP-success body the assistant turn's content is the first
text part of the first candidate when that chain exists, and the fixed
empty-response warning otherwise; the turn appended by `handleSend` ends
the transcript with exactly that content. -/
theorem c9_success_body_extraction (body : GeminiAPIResponse) :
    (∀ t, extractFirstText body = some t → callGeminiAPI (FetchOutcome.ok body) = t) ∧
    (extractFirstText body = none → callGeminiAPI (FetchOutcome.ok body) = emptyWarning) ∧
    (∀ (s : WizardState) (t1 t2 : Nat), isBlank s.input = false →
      (handleSend s (FetchOutcome.ok body) t1 t2).1.messages.getLast? =
        some { role := MessageRole.assistant,
               content := (extractFirstText body).getD emptyWarning, timestamp := t2 }) := by
  refine ⟨?_, ?_, ?_⟩
  · intro t ht
    simp [callGeminiAPI, callGeminiAPITry, ht]
  · intro ht
    simp [callGeminiAPI, callGeminiAPITry, ht]
  · intro s t1 t2 h
    unfold handleSend
    simp only [h, Bool.false_eq_true, if_false]
    simp [callGeminiAPICaught, callGeminiAPITry, handleSendPre]

/-- Witness for `c9_success_body_extraction` on a body with a text part
and on the empty body. -/
theorem c9_success_body_extraction_witness :
    callGeminiAPI (FetchOutcome.ok sampleBody) = "Campaign: ..." ∧
    callGeminiAPI (FetchOutcome.ok { candidates := none }) = emptyWarning ∧
    (handleSend sampleState (FetchOutcome.ok sampleBody) 1 2).1.messages.getLast? =
      some { role := MessageRole.assistant, content := "Campaign: ...", timestamp := 2 } := by
  refine ⟨(c9_success_body_extraction sampleBody).1 "Campaign: ..." (by decide),
    (c9_success_body_extraction { candidates := none }).2.1 (by decide), ?_⟩
  have := (c9_success_body_extraction sampleBody).2.2 sampleState 1 2 (by decide)
  simpa using this

/-- C10: the function `callGeminiAPI` never rejects — every outcome is
returned as a normal value through its `catch` — so `handleSend` always
takes its success branch: for every outcome the transcript gains exactly
the user turn followed by one assistant turn whose content is
`callGeminiAPI`'s return value, and the fallback "An error occurred"
turn of `handleSend`'s own `catch` is never appended. -/
theorem c10_call_never_rejects :
    (∀ o : FetchOutcome, callGeminiAPICaught o = Except.ok (callGeminiAPI o)) ∧
    (∀ (s : WizardState) (o : FetchOutcome) (t1 t2 : Nat), isBlank s.input = false →
      (handleSend s o t1 t2).1.messages =
        s.messages ++
          [{ role := MessageRole.user, content := s.input, timestamp := t1 },
           { role := MessageRole.assistant, content := callGeminiAPI o, timestamp := t2 }]) := by
  have hok : ∀ o : FetchOutcome, callGeminiAPICaught o = Except.ok (callGeminiAPI o) := by
    intro o
    cases o <;> rfl
  refine ⟨hok, fun s o t1 t2 h => ?_⟩
  unfold handleSend
  simp only [h, Bool.false_eq_true, if_false, hok]
  simp [handleSendPre]

/-- Witness for `c10_call_never_rejects` on a transport failure: even
there the call returns normally and exactly one assistant turn is
appended. -/
theorem c10_call_never_rejects_witness :
    callGeminiAPICaught (FetchOutcome.transportFailure JSThrown.nonError) =
      Except.ok (callGeminiAPI (FetchOutcome.transportFailure JSThrown.nonError)) ∧
    (handleSend sampleState (FetchOutcome.transportFailure JSThrown.nonError) 1 2).1.messages =
      sampleState.messages ++
        [{ role := MessageRole.user, content := sampleState.input, timestamp := 1 },
         { role := MessageRole.assistant,
           content := callGeminiAPI (FetchOutcome.transportFailure JSThrown.nonError),
           timestamp := 2 }] :=
  ⟨c10_call_never_rejects.1 (FetchOutcome.transportFailure JSThrown.nonError),
   c10_call_never_rejects.2 sampleState (FetchOutcome.transportFailure JSThrown.nonError) 1 2
     (by decide)⟩

/-- C6: Every failed call yields an assistant content that embeds the
human-readable message — the error body's message when present and
non-empty, the generic "API request failed" when the body message is
missing or empty, and the transport error text for a thrown `Error` —
and always contains the prompt to verify the credential together with
the pointer to obtain one. -/
theorem c6_failure_warning (o : FetchOutcome) (h : o.isFailure = true) :
    strIncludes (callGeminiAPI o) "Please check your API key" = true ∧
    strIncludes (callGeminiAPI o) "Get your free API key at: https://ai.google.dev/" = true ∧
    (∀ m, m ≠ "" → o = FetchOutcome.httpError (some m) →
      strIncludes (callGeminiAPI o) m = true) ∧
    ((o = FetchOutcome.httpError none ∨ o = FetchOutcome.httpError (some "")) →
      strIncludes (callGeminiAPI o) "API request failed" = true) ∧
    (∀ m, o = FetchOutcome.transportFailure (JSThrown.error m) →
      strIncludes (callGeminiAPI o) m = true) := by
  have hw := callGeminiAPI_failure_eq o h
  have key : ∀ em hint : String,
      strIncludes ("⚠️ Error: " ++ em ++ hint ++ checkKeySuffix) em = true := by
    intro em hint
    rw [String.append_assoc]
    exact strIncludes_mid _ _ _
  refine ⟨?_, ?_, ?_, ?_, ?_⟩
  · rw [hw]
    exact strIncludes_mono_left _ _ _ (by decide)
  · rw [hw]
    exact strIncludes_mono_left _ _ _ (by decide)
  · intro m hm ho
    have hem : failureErrorMessage o = m := by
      subst ho
      simp [failureErrorMessage, httpErrorMessage, hm]
    rw [hw, hem]
    exact key m _
  · intro hcase
    have hem : failureErrorMessage o = "API request failed" := by
      rcases hcase with ho | ho <;> subst ho <;>
        simp [failureErrorMessage, httpErrorMessage]
    rw [hw, hem]
    exact key _ _
  · intro m ho
    have hem : failureErrorMessage o = m := by
      subst ho
      simp [failureErrorMessage, extractedErrorMessage]
    rw [hw, hem]
    exact key m _

/-- Witness for `c6_failure_warning`: a body message is embedded, a
missing body message falls back to the generic text, and the credential
prompt is present. -/
theorem c6_failure_warning_witness :
    strIncludes (callGeminiAPI (FetchOutcome.httpError (some "API key not valid")))
      "Please check your API key" = true ∧
    strIncludes (callGeminiAPI (FetchOutcome.httpError (some "API key not valid")))
      "API key not valid" = true ∧
    strIncludes (callGeminiAPI (FetchOutcome.httpError none)) "API request failed" = true :=
  ⟨(c6_failure_warning (FetchOutcome.httpError (some "API key not valid")) rfl).1,
   (c6_failure_warning (FetchOutcome.httpError (some "API key not valid")) rfl).2.2.1
     "API key not valid" (by decide) rfl,
   (c6_failure_warning (FetchOutcome.httpError none) rfl).2.2.2.1 (Or.inl rfl)⟩

/-- C7: On a failure whose extracted error message contains "not found",
the assistant content contains the configured model identifier and the
documentation pointer; on a failure without that substring, the model
hint is absent — the content is exactly the marker, the message and the
fixed credential tail. -/
theorem c7_not_found_model_hint (o : FetchOutcome) (h : o.isFailure = true) :
    (strIncludes (failureErrorMessage o) "not found" = true →
      strIncludes (callGeminiAPI o) GEMINI_MODEL = true ∧
      strIncludes (callGeminiAPI o) "https://ai.google.dev/gemini-api/docs/models" = true) ∧
    (strIncludes (failureErrorMessage o) "not found" = false →
      callGeminiAPI o = "⚠️ Error: " ++ failureErrorMessage o ++ checkKeySuffix) := by
  have hw := callGeminiAPI_failure_eq o h
  constructor
  · intro hnf
    rw [hw, if_pos hnf]
    exact ⟨strIncludes_mono_right _ _ _ (strIncludes_mono_left _ _ _ (by decide)),
      strIncludes_mono_right _ _ _ (strIncludes_mono_left _ _ _ (by decide))⟩
  · intro hnf
    rw [hw, if_neg (by simp [hnf]), String.append_empty]

/-- Witness for `c7_not_found_model_hint`: a "not found" failure carries
the model identifier, and an unrelated failure carries no hint. -/
theorem c7_not_found_model_hint_witness :
    strIncludes (callGeminiAPI (FetchOutcome.httpError (some "model not found")))
      GEMINI_MODEL = true ∧
    callGeminiAPI (FetchOutcome.transportFailure (JSThrown.error "network timeout")) =
      "⚠️ Error: " ++
        failureErrorMessage (FetchOutcome.transportFailure (JSThrown.error "network timeout")) ++
        checkKeySuffix :=
  ⟨((c7_not_found_model_hint (FetchOutcome.httpError (some "model not found")) rfl).1
      (by decide)).1,
   (c7_not_found_model_hint (FetchOutcome.transportFailure (JSThrown.error "network timeout"))
      rfl).2 (by decide)⟩

/-- A state with a request pending (`isTyping = true`) and a non-blank
draft in the textarea. -/
def pendingState : WizardState :=
  { sampleState with input := "hi", isTyping := true }

/-- The Enter keypress without Shift on the chat textarea. -/
def enterEvent : KeyEvent :=
  { key := "Enter", shiftKey := false }

/-- C1: the claimed invariant — while the pending flag is true no user
submission action (button or keyboard) can start a second network call
or append a second user turn — fails in the code: the send button is
disabled while pending, but the Enter keypress handler calls
`handleSend` with no pending check, so from a pending state with a
non-blank draft it issues a request and appends two more turns. -/
theorem c1_keyboard_bypasses_pending_guard :
    pendingState.isTyping = true ∧
    sendButtonClick pendingState (FetchOutcome.httpError none) 1 2 = (pendingState, []) ∧
    (handleKeyPress pendingState enterEvent (FetchOutcome.httpError none) 1 2).2 =
      [buildRequestBody "hi"] ∧
    (handleKeyPress pendingState enterEvent (FetchOutcome.httpError none) 1 2).1.messages.length =
      pendingState.messages.length + 2 :=
  ⟨rfl, rfl, rfl, rfl⟩

end MarketingWizard
